import Mathlib

/-!
Verification of the vertica-sqlglot-dialect repository's scripts
(src/verify.py, src/test_simple.py, src/examples/run_all_examples.py).

The scripts are thin callers into the sqlglot host library and the
sqlglot_vertica dialect plugin; the library is abstracted here as an
explicit record of fallible operations (Python exceptions become
Except.error carrying the exception's message / type name), and each
script's control flow is embedded as a pure Lean function of that record.
-/

/-- Tests whether the character list starting with the second argument has
the first argument as an initial segment (characterwise equality). -/
def charsStartsWith : List Char → List Char → Bool
  | [], _ => true
  | _ :: _, [] => false
  | a :: as, b :: bs => a == b && charsStartsWith as bs

/-- Tests whether the first character list occurs contiguously inside the
second one. -/
def charsContains : List Char → List Char → Bool
  | needle, [] => needle.isEmpty
  | needle, b :: bs => charsStartsWith needle (b :: bs) || charsContains needle bs

/-- Model of the Python substring test: needle occurring in hay, as in the
Python expression needle in hay used by the scripts' assertions. -/
def strContains (hay needle : String) : Bool :=
  charsContains needle.toList hay.toList

/-- Model of a Python assert statement: raises AssertionError (as an
Except.error) when the condition is false. -/
def pyAssert (p : Prop) [Decidable p] : Except String Unit :=
  if p then Except.ok () else Except.error "AssertionError"

/-- Model of Python list indexing with index 0, as in parsed[0]: raises
IndexError on an empty list. -/
def pyIndex0 {α : Type} (l : List α) : Except String α :=
  match l with
  | [] => Except.error "IndexError"
  | a :: _ => Except.ok a

/-- Abstraction of the sqlglot host library plus the registered Vertica
dialect, as the scripts use it. AST is the (opaque) type of parsed
expressions. Each operation either returns a value or raises a Python
exception, modelled as Except.error carrying the exception's message.
Fields: importDialect models the import of sqlglot_vertica.vertica (it can
raise ImportError); parse_one models sqlglot.parse_one(sql, read=Vertica);
astSql models ast.sql(dialect=Vertica); verticaParse models
Vertica.parse(sql) returning a list of statements; generate models
Vertica().generate(ast); transpile models
sqlglot.transpile(sql, read, write). -/
structure SqlglotLib (AST : Type) where
  importDialect : Except String Unit
  parse_one : String → Except String AST
  astSql : AST → Except String String
  verticaParse : String → Except String (List AST)
  generate : AST → Except String String
  transpile : String → String → String → Except String (List String)

/-- Model of src/verify.py (lines 3-19): the whole module body is one
try/except; each step prints a SUCCESS line, any exception lands in the
except clause which prints an ERROR line; the script then ends normally on
every path, so the interpreter's exit status is 0 on every path. Returns
(console lines, process exit code). -/
def verify_py {α : Type} (lib : SqlglotLib α) : List String × Nat :=
  match lib.importDialect with
  | Except.error e => (["ERROR: " ++ e], 0)
  | Except.ok _ =>
    let l0 := ["SUCCESS: Vertica dialect imported successfully"]
    match lib.verticaParse "SELECT 1" with
    | Except.error e => (l0 ++ ["ERROR: " ++ e], 0)
    | Except.ok result =>
      let l1 := l0 ++ ["SUCCESS: Basic parsing works"]
      match result with
      | [] => (l1 ++ ["ERROR: list index out of range"], 0)
      | r0 :: _ =>
        match lib.generate r0 with
        | Except.error e => (l1 ++ ["ERROR: " ++ e], 0)
        | Except.ok g => (l1 ++ ["SUCCESS: Generated SQL: " ++ g], 0)

/-- Model of the try-block body of test_basic_functionality in
src/test_simple.py (lines 10-61): the import, the six parse/generate
blocks with their asserts, and the final transpile check, sequenced in the
exception monad exactly as the Python statements are. -/
def test_basic_functionality_body {α : Type} (lib : SqlglotLib α) : Except String Unit := do
  lib.importDialect
  let parsed ← lib.verticaParse "SELECT * FROM table1"
  pyAssert (parsed.length > 0)
  let p0 ← pyIndex0 parsed
  let generated ← lib.generate p0
  pyAssert (generated = "SELECT * FROM table1")
  let parsed2 ← lib.verticaParse "SELECT DATEADD(DAY, 1, CURRENT_DATE)"
  let p2 ← pyIndex0 parsed2
  let g2 ← lib.generate p2
  pyAssert (strContains g2 "DATEADD")
  let parsed3 ← lib.verticaParse "SELECT \x27hello\x27 ILIKE \x27HE%\x27"
  let p3 ← pyIndex0 parsed3
  let g3 ← lib.generate p3
  pyAssert (strContains g3 "ILIKE")
  let parsed4 ← lib.verticaParse "SELECT ARRAY[1, 2, 3]"
  let p4 ← pyIndex0 parsed4
  let g4 ← lib.generate p4
  pyAssert (strContains g4 "ARRAY")
  let parsed5 ← lib.verticaParse "CREATE TABLE test (id INTEGER, ts TIMESTAMPTZ)"
  let p5 ← pyIndex0 parsed5
  let g5 ← lib.generate p5
  pyAssert (strContains g5 "TIMESTAMPTZ")
  let result ← lib.transpile "SELECT NOW()" "postgres" "vertica"
  pyAssert (result.length > 0)

/-- Model of test_basic_functionality's return value: True when the body
runs to the end, False when any exception is caught (lines 61-67). -/
def test_basic_functionality {α : Type} (lib : SqlglotLib α) : Bool :=
  match test_basic_functionality_body lib with
  | Except.ok _ => true
  | Except.error _ => false

/-- Model of the diagnostic the except clause of test_basic_functionality
prints (src/test_simple.py line 64): one line naming the error, only when
an exception was caught. -/
def test_simple_diag {α : Type} (lib : SqlglotLib α) : List String :=
  match test_basic_functionality_body lib with
  | Except.ok _ => []
  | Except.error e => ["❌ Test failed with error: " ++ e]

/-- Model of the main block of src/test_simple.py (lines 69-80): exit
status 0 when test_basic_functionality returned True, 1 otherwise. -/
def test_simple_exit {α : Type} (lib : SqlglotLib α) : Nat :=
  if test_basic_functionality lib then 0 else 1

/-- Outcome of one subprocess.run call (src/examples/run_all_examples.py
lines 27-33): the child completed with a return code and captured
stdout/stderr, or the timeout expired (subprocess.TimeoutExpired), or some
other exception was raised while launching or running it. -/
inductive SubprocOutcome where
  | completed (returncode : Int) (stdout stderr : String)
  | timedOut
  | raised (msg : String)

/-- Environment for subprocess execution: what subprocess.run returns for a
given script name and timeout (in seconds). -/
structure SubprocEnv where
  run : String → Nat → SubprocOutcome

/-- Model of run_example_script (src/examples/run_all_examples.py lines
22-46): runs the child with the hard-coded timeout of 30 seconds; success
is returncode == 0, the returned output is stdout on success and stderr on
failure; TimeoutExpired yields the fixed timeout message and any other
exception yields an error message, both as failure triples. The wall-clock
execution time (time.time() minus start_time) is abstracted as the
argument elapsed. -/
def run_example_script (env : SubprocEnv) (script_name : String) (elapsed : ℚ) :
    Bool × String × ℚ :=
  match env.run script_name 30 with
  | SubprocOutcome.completed rc stdout stderr =>
    let success := rc == 0
    (success, if success then stdout else stderr, elapsed)
  | SubprocOutcome.timedOut =>
    (false, "Script timed out after 30 seconds", elapsed)
  | SubprocOutcome.raised e =>
    (false, "Error running script: " ++ e, elapsed)

/-- The four example scripts main runs
(src/examples/run_all_examples.py lines 225-230). -/
def example_scripts : List String :=
  ["basic_usage.py",
   "advanced_transformations.py",
   "data_migration.py",
   "performance_analysis.py"]

/-- Model of main's results list (lines 232-238): for each example script,
the (script, success, exec_time) triple appended by the loop. The per-call
wall-clock time is abstracted as the function elapsed. -/
def main_results (env : SubprocEnv) (elapsed : String → ℚ) : List (String × Bool × ℚ) :=
  example_scripts.map (fun script =>
    let r := run_example_script env script (elapsed script)
    (script, r.1, r.2.2))

/-- Model of main's successful counter (line 253):
sum(1 for _, success, _ in results if success). -/
def main_successful (env : SubprocEnv) (elapsed : String → ℚ) : Nat :=
  (main_results env elapsed).countP (fun r => r.2.1)

/-- Model of total_scripts (line 254): len(results). -/
def main_total_scripts (env : SubprocEnv) (elapsed : String → ℚ) : Nat :=
  (main_results env elapsed).length

/-- Model (line 258) of the Failed count main prints:
total_scripts - successful. -/
def main_failed_reported (env : SubprocEnv) (elapsed : String → ℚ) : Nat :=
  main_total_scripts env elapsed - main_successful env elapsed

/-- Model of main's return value (lines 269-275): 0 when every example
script succeeded, 1 otherwise; the module guard passes it to sys.exit
(line 279). -/
def run_all_main_exit (env : SubprocEnv) (elapsed : String → ℚ) : Nat :=
  if main_successful env elapsed = main_total_scripts env elapsed then 0 else 1

/-- The part of a child's returned output that main prints to the console
(lines 240-244): nothing of it when the child succeeded, and the first 200
characters of it inside an Error line when it failed. -/
def main_printed_output (success : Bool) (output : String) : List String :=
  if success then [] else ["  Error: " ++ output.take 200 ++ "..."]

/-- The six validation test cases of quick_dialect_validation
(src/examples/run_all_examples.py lines 54-82), as (name, sql) pairs. -/
def test_cases : List (String × String) :=
  [("Basic SELECT", "SELECT name, salary FROM employees WHERE active = true"),
   ("Date functions",
    "SELECT DATEADD(\x27day\x27, 7, hire_date), DATEDIFF(\x27month\x27, start_date, end_date) FROM projects"),
   ("String functions",
    "SELECT MD5(email), SHA1(password), ILIKE(name, \x27John%\x27) FROM users"),
   ("Window functions",
    "SELECT emp_id, ROW_NUMBER() OVER (PARTITION BY dept_id ORDER BY salary DESC) FROM employees"),
   ("Complex query", "
        WITH dept_stats AS (
            SELECT dept_id, AVG(salary) as avg_salary
            FROM employees
            GROUP BY dept_id
        )
        SELECT e.name, e.salary, ds.avg_salary
        FROM employees e
        JOIN dept_stats ds ON e.dept_id = ds.dept_id
        WHERE e.salary > ds.avg_salary
        "),
   ("DDL", "CREATE TABLE test (id INTEGER PRIMARY KEY, data BYTEA, created_at TIMESTAMPTZ)")]

/-- The body of one iteration of quick_dialect_validation's try block
(lines 88-90): parse_one followed by ast.sql, either step may raise. -/
def case_outcome {α : Type} (lib : SqlglotLib α) (sql : String) : Except String String :=
  (lib.parse_one sql).bind lib.astSql

/-- One loop iteration's effect on the (passed, failed) counters
(lines 87-95): the try branch increments passed, the except branch
increments failed. -/
def quick_step {α : Type} (lib : SqlglotLib α) (acc : Nat × Nat) (c : String × String) :
    Nat × Nat :=
  match case_outcome lib c.2 with
  | Except.ok _ => (acc.1 + 1, acc.2)
  | Except.error _ => (acc.1, acc.2 + 1)

/-- The (passed, failed) counters after quick_dialect_validation's loop
(lines 84-95), starting from (0, 0). -/
def quick_validation_counts {α : Type} (lib : SqlglotLib α) : Nat × Nat :=
  test_cases.foldl (quick_step lib) (0, 0)

/-- The console line one iteration of quick_dialect_validation prints
(lines 91 and 94): a PASSED line from the try branch or a FAILED
diagnostic from the except branch. -/
def quick_case_line {α : Type} (lib : SqlglotLib α) (c : String × String) : String :=
  match case_outcome lib c.2 with
  | Except.ok _ => "✅ " ++ c.1 ++ ": PASSED"
  | Except.error e => "❌ " ++ c.1 ++ ": FAILED - " ++ e

/-- The per-case console lines of quick_dialect_validation's loop: one line
per test case, in order (the except branch continues the loop, so every
case is reached). -/
def quick_validation_lines {α : Type} (lib : SqlglotLib α) : List String :=
  test_cases.map (quick_case_line lib)

/-- The three unsupported constructs demonstrate_key_features feeds to
parse_one (src/examples/run_all_examples.py lines 122-126). -/
def unsupported_cases : List (String × String) :=
  [("Dollar-quoted strings", "SELECT $$invalid$$ FROM test"),
   ("LATERAL joins", "SELECT * FROM a LEFT JOIN LATERAL (SELECT * FROM b) x ON true"),
   ("COPY FROM LOCAL", "COPY table1 FROM LOCAL \x27/tmp/data.csv\x27")]

/-- The console line the unsupported-feature loop prints for one case
(lines 128-133): the Correctly rejected line when parse_one raises (the
error string models the exception's type name), the Should have failed
line when it does not. -/
def feature_line (parse : String → Except String String) (c : String × String) : String :=
  match parse c.2 with
  | Except.ok _ => "   ❌ " ++ c.1 ++ ": Should have failed but didn\x27t"
  | Except.error e => "   ✅ " ++ c.1 ++ ": Correctly rejected - " ++ e

/-- The fixed benchmark query of show_performance_summary
(src/examples/run_all_examples.py lines 160-177). -/
def perf_test_sql : String := "
    WITH monthly_sales AS (
        SELECT 
            customer_id,
            DATE_TRUNC(\x27month\x27, order_date) as month,
            SUM(amount) as total
        FROM orders
        WHERE order_date >= DATEADD(\x27year\x27, -1, CURRENT_DATE)
        GROUP BY customer_id, DATE_TRUNC(\x27month\x27, order_date)
    )
    SELECT 
        customer_id,
        month,
        total,
        LAG(total) OVER (PARTITION BY customer_id ORDER BY month) as prev_total
    FROM monthly_sales
    ORDER BY customer_id, month
    "

/-- The iteration count of the benchmark loop (line 180). -/
def iterations : Nat := 100

/-- The sequence of arguments the benchmark loop passes to parse_one
(lines 183-184): the same fixed query, once per iteration. -/
def perf_parse_calls : List String :=
  (List.range iterations).map (fun _ => perf_test_sql)

/-- The elapsed time of the benchmark (line 186): time.time() after the
loop minus the start time, abstracted over the two clock readings. -/
def perf_parse_time (start_time end_time : ℚ) : ℚ :=
  end_time - start_time

/-- The reported per-iteration average (line 187):
(parse_time / iterations) * 1000, in milliseconds. -/
def avg_parse_time (parse_time : ℚ) : ℚ :=
  parse_time / (iterations : ℚ) * 1000

/-- Modelled from the spec: the host library's parse_one with the Vertica
dialect. The dialect module sqlglot_vertica/vertica.py is not among the
supplied source files; spec section 8 records that "an unsupported
construct raises an exception", and the unsupported constructs named by
the example script are dollar-quoted strings, LATERAL joins and COPY FROM
LOCAL. The AST is abstracted as the accepted source text; a query showing
one of the unsupported construct markers raises a ParseError. -/
def parse_one_model (sql : String) : Except String String :=
  if strContains sql "$$" then Except.error "ParseError"
  else if strContains sql "LATERAL" then Except.error "ParseError"
  else if strContains sql "FROM LOCAL" then Except.error "ParseError"
  else Except.ok sql

/-- Modelled from the spec: the sqlglot host library together with the
registered Vertica dialect, whose code is not among the supplied source
files. Per spec section 8, "generating a parsed SELECT * FROM table1
reproduces the original text" and "parsing a DATEADD call preserves the
function name in output": the AST of a statement is abstracted as its
source text, parsing returns it unchanged (except for the unsupported
constructs, which raise), and generation reproduces it. -/
def modelLib : SqlglotLib String where
  importDialect := Except.ok ()
  parse_one := parse_one_model
  astSql := fun ast => Except.ok ast
  verticaParse := fun sql => (parse_one_model sql).map (fun a => [a])
  generate := fun ast => Except.ok ast
  transpile := fun sql _ _ => Except.ok [sql]

/-- The parse-then-generate round trip of src/test_simple.py (lines 17-23
and analogous blocks): Vertica.parse(sql) followed by
Vertica().generate(parsed[0]). -/
def roundtrip {α : Type} (lib : SqlglotLib α) (sql : String) : Except String String := do
  let parsed ← lib.verticaParse sql
  let p0 ← pyIndex0 parsed
  lib.generate p0

/-- A library environment whose every parse raises a ParseError, for
evaluating the scripts' exception paths at a concrete input. -/
def failLib : SqlglotLib Unit where
  importDialect := Except.ok ()
  parse_one := fun _ => Except.error "ParseError"
  astSql := fun _ => Except.ok ""
  verticaParse := fun _ => Except.error "ParseError"
  generate := fun _ => Except.ok ""
  transpile := fun _ _ _ => Except.error "ParseError"

/-- A subprocess environment in which every child exceeds its timeout. -/
def timeoutEnv : SubprocEnv :=
  ⟨fun _ _ => SubprocOutcome.timedOut⟩

/-- A subprocess environment in which every child exits 0 with a fixed
stdout and empty stderr. -/
def helloEnv : SubprocEnv :=
  ⟨fun _ _ => SubprocOutcome.completed 0 "hello from child" ""⟩

/-- Helper: folding quick_step over any case list adds the list's length to
the sum of the two counters — each iteration increments exactly one. -/
theorem quick_counts_fold_sum {α : Type} (lib : SqlglotLib α)
    (cs : List (String × String)) :
    ∀ acc : Nat × Nat,
      (cs.foldl (quick_step lib) acc).1 + (cs.foldl (quick_step lib) acc).2
        = acc.1 + acc.2 + cs.length := by
  induction cs with
  | nil => intro acc; simp
  | cons c cs ih =>
    intro acc
    rw [List.foldl_cons, ih]
    unfold quick_step
    cases case_outcome lib c.2 <;> simp <;> omega

/-- C10: the pass/fail counters partition the work — for every library
behaviour, after quick_dialect_validation's loop passed plus failed equals
the number of test cases (6), each iteration incrementing exactly one of
the two counters; and in main's summary the successful count plus the
reported failed count equals the number of example scripts run (4). -/
theorem counters_partition_spec {α : Type} (lib : SqlglotLib α) (env : SubprocEnv)
    (elapsed : String → ℚ) (acc : Nat × Nat) (c : String × String) :
    (quick_validation_counts lib).1 + (quick_validation_counts lib).2 = 6 ∧
    (quick_step lib acc c = (acc.1 + 1, acc.2) ∨
      quick_step lib acc c = (acc.1, acc.2 + 1)) ∧
    main_successful env elapsed + main_failed_reported env elapsed = 4 := by
  refine ⟨?_, ?_, ?_⟩
  · have h := quick_counts_fold_sum lib test_cases (0, 0)
    unfold quick_validation_counts
    rw [h]
    rfl
  · unfold quick_step
    cases case_outcome lib c.2 <;> simp
  · have hle : main_successful env elapsed ≤ main_total_scripts env elapsed := by
      unfold main_successful main_total_scripts
      exact List.countP_le_length _
    have htot : main_total_scripts env elapsed = 4 := by
      unfold main_total_scripts main_results example_scripts
      simp
    unfold main_failed_reported
    omega

/-- C1 (amended): run_all_examples.main returns 0 exactly when every child
script succeeded and 1 otherwise; test_simple exits 0 exactly when
test_basic_functionality returns True and 1 otherwise; verify.py, however,
always exits 0 — its module-level try/except catches any exception from
its parse or generate step and the script then ends normally. -/
theorem exit_codes_spec {α : Type} (lib : SqlglotLib α) (env : SubprocEnv)
    (elapsed : String → ℚ) :
    (run_all_main_exit env elapsed = 0 ↔ ∀ r ∈ main_results env elapsed, r.2.1 = true) ∧
    (run_all_main_exit env elapsed = 1 ↔ ¬ ∀ r ∈ main_results env elapsed, r.2.1 = true) ∧
    (test_simple_exit lib = 0 ↔ test_basic_functionality lib = true) ∧
    (test_simple_exit lib = 1 ↔ test_basic_functionality lib = false) ∧
    (verify_py lib).2 = 0 := by
  have hall : main_successful env elapsed = main_total_scripts env elapsed ↔
      ∀ r ∈ main_results env elapsed, r.2.1 = true := by
    unfold main_successful main_total_scripts
    exact List.countP_eq_length
  refine ⟨?_, ?_, ?_, ?_, ?_⟩
  · unfold run_all_main_exit
    by_cases h : main_successful env elapsed = main_total_scripts env elapsed
    · rw [if_pos h]
      exact iff_of_true rfl (hall.mp h)
    · rw [if_neg h]
      exact iff_of_false one_ne_zero (fun hc => h (hall.mpr hc))
  · unfold run_all_main_exit
    by_cases h : main_successful env elapsed = main_total_scripts env elapsed
    · rw [if_pos h]
      exact iff_of_false zero_ne_one (fun hc => hc (hall.mp h))
    · rw [if_neg h]
      exact iff_of_true rfl (fun hc => h (hall.mpr hc))
  · unfold test_simple_exit
    cases hb : test_basic_functionality lib <;> simp
  · unfold test_simple_exit
    cases hb : test_basic_functionality lib <;> simp
  · unfold verify_py
    repeat first
      | rfl
      | split

/-- C1 counterexample: the claim as stated is false for verify.py — in an
environment whose parse step raises a ParseError, verify.py prints the
ERROR diagnostic and still exits with status 0, not a nonzero code. -/
theorem verify_swallows_error_exit_zero :
    failLib.verticaParse "SELECT 1" = Except.error "ParseError" ∧
    verify_py failLib
      = (["SUCCESS: Vertica dialect imported successfully", "ERROR: ParseError"], 0) :=
  ⟨rfl, rfl⟩

/-- C2: in quick_dialect_validation an exception from parse_one or ast.sql
is caught, the FAILED diagnostic line is printed, the failed counter is
incremented, and every one of the six cases is still processed (the loop
is never aborted); whereas in test_simple any exception from the library
body makes test_basic_functionality print its diagnostic and return False,
so the process exits with code 1. -/
theorem exception_handling_spec {α : Type} (lib : SqlglotLib α) (name sql e : String)
    (acc : Nat × Nat) :
    (quick_validation_lines lib).length = 6 ∧
    (case_outcome lib sql = Except.error e →
      quick_case_line lib (name, sql) = "❌ " ++ name ++ ": FAILED - " ++ e ∧
      quick_step lib acc (name, sql) = (acc.1, acc.2 + 1)) ∧
    (test_basic_functionality_body lib = Except.error e →
      test_basic_functionality lib = false ∧ test_simple_exit lib = 1 ∧
      test_simple_diag lib = ["❌ Test failed with error: " ++ e]) := by
  refine ⟨?_, ?_, ?_⟩
  · unfold quick_validation_lines test_cases
    simp
  · intro h
    unfold quick_case_line quick_step
    rw [h]
    exact ⟨rfl, rfl⟩
  · intro h
    unfold test_basic_functionality test_simple_exit test_simple_diag
    rw [h]
    unfold test_basic_functionality
    rw [h]
    exact ⟨rfl, rfl, rfl⟩

/-- Witness for C2: in the environment whose every parse raises ParseError,
the first validation case prints its FAILED line and counts as failed, and
test_simple exits 1. -/
theorem exception_handling_spec_witness :
    quick_case_line failLib
        ("Basic SELECT", "SELECT name, salary FROM employees WHERE active = true")
      = "❌ Basic SELECT: FAILED - ParseError" ∧
    quick_step failLib (0, 0)
        ("Basic SELECT", "SELECT name, salary FROM employees WHERE active = true")
      = (0, 1) ∧
    test_basic_functionality failLib = false ∧ test_simple_exit failLib = 1 := by
  have h := exception_handling_spec failLib "Basic SELECT"
    "SELECT name, salary FROM employees WHERE active = true" "ParseError" (0, 0)
  exact ⟨(h.2.1 rfl).1, (h.2.1 rfl).2, (h.2.2 rfl).1, (h.2.2 rfl).2.1⟩

/-- C3: generating SQL from the parse of SELECT * FROM table1 reproduces
the original text exactly, so the round-trip assertion (and the whole of
test_basic_functionality) passes in the modelled dialect. -/
theorem roundtrip_select_star :
    roundtrip modelLib "SELECT * FROM table1" = Except.ok "SELECT * FROM table1" ∧
    test_basic_functionality modelLib = true :=
  ⟨rfl, rfl⟩

/-- C4: for each of the three unsupported constructs listed in
demonstrate_key_features, parse_one with the modelled Vertica dialect
raises, and the script prints the Correctly rejected line for that case
rather than the Should have failed line. -/
theorem unsupported_constructs_rejected :
    unsupported_cases.map (fun c => (parse_one_model c.2).isOk) = [false, false, false] ∧
    unsupported_cases.map (feature_line parse_one_model) =
      ["   ✅ Dollar-quoted strings: Correctly rejected - ParseError",
       "   ✅ LATERAL joins: Correctly rejected - ParseError",
       "   ✅ COPY FROM LOCAL: Correctly rejected - ParseError"] :=
  ⟨rfl, rfl⟩

/-- C5 (amended): run_example_script reports success exactly when the
child's return code is 0, returning the child's full stdout on success and
its full stderr on failure; main, however, prints at most the first 200
characters of that output and only when the child failed — a successful
child's stdout is never printed. -/
theorem run_example_script_returncode_spec (env : SubprocEnv) (script : String)
    (elapsed : ℚ) (rc : Int) (out err : String)
    (h : env.run script 30 = SubprocOutcome.completed rc out err) :
    run_example_script env script elapsed
      = (rc == 0, if rc == 0 then out else err, elapsed) ∧
    (∀ o : String, main_printed_output true o = [] ∧
      main_printed_output false o = ["  Error: " ++ o.take 200 ++ "..."]) := by
  constructor
  · unfold run_example_script
    rw [h]
  · intro o
    exact ⟨rfl, rfl⟩

/-- Witness for C5's amended theorem: a child exiting 0 with a fixed stdout
yields the success triple with the full stdout, and a failure output is
printed truncated to 200 characters. -/
theorem run_example_script_returncode_spec_witness :
    run_example_script helloEnv "basic_usage.py" 1 = (true, "hello from child", 1) ∧
    main_printed_output false "boom" = ["  Error: " ++ "boom".take 200 ++ "..."] := by
  have h := run_example_script_returncode_spec helloEnv "basic_usage.py" 1 0
    "hello from child" "" rfl
  exact ⟨h.1, (h.2 "boom").2⟩

/-- C5 counterexample: the claim's last clause is false — when a child
succeeds with nonempty stdout, main prints none of that output to the
console (the success branch prints only its fixed completion line). -/
theorem stdout_not_surfaced_on_success :
    run_example_script helloEnv "basic_usage.py" 1 = (true, "hello from child", 1) ∧
    "hello from child" ≠ "" ∧
    main_printed_output true "hello from child" = [] :=
  ⟨rfl, by decide, rfl⟩

/-- C6: the subprocess runner passes the fixed timeout of 30 seconds for
every child script, and when the child exceeds it (subprocess.run reports
TimeoutExpired) run_example_script returns the failure triple carrying the
fixed timeout message instead of the child's output, without raising. -/
theorem timeout_thirty_seconds_spec (env : SubprocEnv) (script : String) (elapsed : ℚ)
    (h : env.run script 30 = SubprocOutcome.timedOut) :
    run_example_script env script elapsed
      = (false, "Script timed out after 30 seconds", elapsed) := by
  unfold run_example_script
  rw [h]

/-- Witness for C6: in an environment where every child times out, the
runner returns the timeout failure triple at a concrete script. -/
theorem timeout_thirty_seconds_spec_witness :
    run_example_script timeoutEnv "basic_usage.py" 31
      = (false, "Script timed out after 30 seconds", 31) :=
  timeout_thirty_seconds_spec timeoutEnv "basic_usage.py" 31 rfl

/-- C7: parsing SELECT DATEADD(DAY, 1, CURRENT_DATE) with the modelled
Vertica dialect and regenerating SQL yields output containing the function
name DATEADD, so the corresponding assertion in test_basic_functionality
passes. -/
theorem dateadd_preserved :
    (roundtrip modelLib "SELECT DATEADD(DAY, 1, CURRENT_DATE)").map
      (fun g => strContains g "DATEADD") = Except.ok true :=
  rfl

/-- C8: the benchmark in show_performance_summary calls parse_one exactly
100 times on the fixed test query, computes the elapsed time as the end
reading minus the start reading, and reports the per-iteration average as
that elapsed time divided by 100 and multiplied by 1000. -/
theorem performance_benchmark_spec (s e : ℚ) :
    perf_parse_calls = List.replicate iterations perf_test_sql ∧
    iterations = 100 ∧
    perf_parse_time s e = e - s ∧
    avg_parse_time (perf_parse_time s e) = (e - s) / 100 * 1000 := by
  refine ⟨?_, rfl, rfl, ?_⟩
  · unfold perf_parse_calls
    simp
  · unfold avg_parse_time perf_parse_time iterations
    norm_num

/-- C9: run_example_script is total at its interface — for every
environment, script name and elapsed time it returns a triple whose
success flag is true exactly when the child completed with return code 0
(a nonzero return code, a timeout, and any other exception all become
failure triples), and whose time component is the elapsed measurement. -/
theorem run_example_script_total_spec (env : SubprocEnv) (script : String)
    (elapsed : ℚ) :
    ((run_example_script env script elapsed).1 = true ↔
      ∃ out err, env.run script 30 = SubprocOutcome.completed 0 out err) ∧
    (run_example_script env script elapsed).2.2 = elapsed := by
  rcases h : env.run script 30 with ⟨rc, out, err⟩ | _ | msg <;>
    simp [run_example_script, h, beq_iff_eq]
